import Mathlib

/-!
Shallow embedding of MXNet's `ThreadedEnginePerDevice`
(src/engine/threaded_engine_perdevice.cc).

The engine routes operator blocks (tasks) onto per-device worker blocks,
each owning one concurrent blocking queue and one thread pool.  We embed:

* the data model (`FnProperty`, `Context`, `OprBlock`, `RunContext`,
  `ConcurrentBlockingQueue`, `ThreadWorkerBlock`, `EngineState`);
* the constructor (`ThreadedEnginePerDevice.mkEngine`), which reads the three
  worker-count knobs from environment variables via `GetEnv`;
* the dispatch entry point `PushToExecute`, returning either a fatal CHECK
  failure (`Except.error`), an inline execution outcome, or a push outcome
  together with the updated engine state;
* the lazy GPU worker-block resolution `GetGPUWorkerBlock`, instrumented with
  an event trace recording the bounds check, lock acquisition and block
  construction, so ordering claims can be stated;
* the worker loops `GPUWorker` / `CPUWorker` as event-trace functions over the
  list of tasks the loop pops before the queue signals shutdown;
* the `ThreadWorkerBlock` destructor, as the ordered list of teardown events
  (destructor body signals the queue, then C++ destroys the members in reverse
  declaration order: the pool before the queue).

Concurrency is modelled sequentially: each `PushToExecute` call is one atomic
step on the engine state, and multi-caller histories are lists of such steps
(`runTrace`).
-/

namespace MxnetEngine

/-- Property tag of an operation (`FnProperty` in the engine headers). -/
inductive FnProperty
  | kNormal
  | kCopyFromGPU
  | kCopyToGPU
  | kAsync
  deriving DecidableEq, Repr

/-- Execution context of a task: device mask plus device id. -/
structure Context where
  dev_mask : Nat
  dev_id : Nat
  deriving DecidableEq, Repr

/-- The part of an operation the dispatcher inspects: its property tag. -/
structure Opr where
  prop : FnProperty
  deriving DecidableEq, Repr

/-- An operator block: the task handle handed to `PushToExecute`. -/
structure OprBlock where
  opr : Opr
  ctx : Context
  deriving DecidableEq, Repr

/-- Modelled from the spec: device mask of the CPU device class
(`cpu::kDevMask`, defined outside the inspected file). -/
def cpuKDevMask : Nat := 1

/-- Modelled from the spec: device mask of the GPU device class
(`gpu::kDevMask`, defined outside the inspected file). -/
def gpuKDevMask : Nat := 2

/-- Modelled from the spec: the fixed maximum supported device count
(`kMaxNumGPUs`, defined outside the inspected file).  The claims only use it
as an abstract bound; its concrete value is irrelevant to the theorems. -/
def kMaxNumGPUs : Nat := 16

/-- A GPU stream as created by `mshadow::NewStream<gpu>(blas, dnn)`: we track
which auxiliary handles it was created with. -/
structure Stream where
  blas_handle : Bool
  dnn_handle : Bool
  deriving DecidableEq, Repr

/-- Run context passed to `ExecuteOprBlock`: an optional stream
(null for CPU execution). -/
structure RunContext where
  stream : Option Stream
  deriving DecidableEq, Repr

/-- Model of `dmlc::ConcurrentBlockingQueue<OprBlock*>`: FIFO items plus the
kill/shutdown flag set by `SignalForKill`. -/
structure ConcurrentBlockingQueue where
  items : List OprBlock
  killed : Bool
  deriving DecidableEq, Repr

/-- Model of `queue.Push(x)`: FIFO append. -/
def ConcurrentBlockingQueue.Push (q : ConcurrentBlockingQueue) (x : OprBlock) :
    ConcurrentBlockingQueue :=
  { q with items := q.items ++ [x] }

/-- Model of `queue.SignalForKill()`: set the shutdown flag (idempotent). -/
def ConcurrentBlockingQueue.SignalForKill (q : ConcurrentBlockingQueue) :
    ConcurrentBlockingQueue :=
  { q with killed := true }

/-- A freshly constructed queue: empty, not killed. -/
def emptyQueue : ConcurrentBlockingQueue := { items := [], killed := false }

/-- Which worker loop the block's thread pool runs (the closure handed to
`ThreadPool` at construction). -/
inductive LoopKind
  | cpuLoop
  | gpuLoop (dev_id : Nat) (is_copy_worker : Bool)
  deriving DecidableEq, Repr

/-- Model of `ThreadWorkerBlock`: one task queue plus one thread pool.  We record the
pool's thread count and which worker loop its threads run, and give each
constructed block a numeric identity so singleton claims can be stated. -/
structure ThreadWorkerBlock where
  blockId : Nat
  task_queue : ConcurrentBlockingQueue
  pool_nthread : Int
  pool_loop : LoopKind
  deriving DecidableEq, Repr

/-- State of a `ThreadedEnginePerDevice` instance: the three configured
thread counts, the eagerly created CPU worker block, the two lazily filled
GPU worker-slot arrays (indexed by device id), and a counter supplying fresh
block identities. -/
structure EngineState where
  cpu_worker_nthreads : Int
  gpu_worker_nthreads : Int
  gpu_copy_nthreads : Int
  cpu_worker : ThreadWorkerBlock
  gpu_normal_workers : Nat → Option ThreadWorkerBlock
  gpu_copy_workers : Nat → Option ThreadWorkerBlock
  next_block_id : Nat

/-- The environment variables the constructor reads. -/
structure Env where
  mxnet_cpu_worker_nthreads : Option Int
  mxnet_gpu_worker_nthreads : Option Int
  mxnet_gpu_copy_nthreads : Option Int
  deriving DecidableEq, Repr

/-- Model of `dmlc::GetEnv(name, default)`: the variable's value if set, else the
default. -/
def GetEnv (value : Option Int) (default_value : Int) : Int :=
  value.getD default_value

/-- The `ThreadedEnginePerDevice` constructor: reads the three worker counts
from the environment (defaults 2, 2, 1), eagerly creates the CPU worker block
with a pool of `cpu_worker_nthreads_` threads running `CPUWorker`, and leaves
every GPU slot empty (GPU blocks are created lazily). -/
def ThreadedEnginePerDevice.mkEngine (env : Env) : EngineState :=
  let cpu_worker_nthreads := GetEnv env.mxnet_cpu_worker_nthreads 2
  let gpu_worker_nthreads := GetEnv env.mxnet_gpu_worker_nthreads 2
  let gpu_copy_nthreads := GetEnv env.mxnet_gpu_copy_nthreads 1
  { cpu_worker_nthreads := cpu_worker_nthreads
    gpu_worker_nthreads := gpu_worker_nthreads
    gpu_copy_nthreads := gpu_copy_nthreads
    cpu_worker :=
      { blockId := 0
        task_queue := emptyQueue
        pool_nthread := cpu_worker_nthreads
        pool_loop := LoopKind.cpuLoop }
    gpu_normal_workers := fun _ => none
    gpu_copy_workers := fun _ => none
    next_block_id := 1 }

/-- The `is_copy` flag as computed by `GetGPUWorkerBlock`:
`prop == kCopyFromGPU || prop == kCopyToGPU`. -/
def is_copy_prop (prop : FnProperty) : Bool :=
  prop == FnProperty.kCopyFromGPU || prop == FnProperty.kCopyToGPU

/-- The GPU worker-slot array selected by category
(`gpu_copy_workers_` when copy, `gpu_normal_workers_` otherwise). -/
def gpuWorkers (s : EngineState) : Bool → Nat → Option ThreadWorkerBlock
  | true => s.gpu_copy_workers
  | false => s.gpu_normal_workers

/-- Replace the category's worker-slot array in the engine state. -/
def setGpuWorkers (s : EngineState) :
    Bool → (Nat → Option ThreadWorkerBlock) → EngineState
  | true, w => { s with gpu_copy_workers := w }
  | false, w => { s with gpu_normal_workers := w }

/-- Point update of a worker-slot array (`workers->at(dev_id).reset(...)`). -/
def storeSlot (w : Nat → Option ThreadWorkerBlock) (dev_id : Nat)
    (block : ThreadWorkerBlock) : Nat → Option ThreadWorkerBlock :=
  fun j => if j = dev_id then some block else w j

/-- Events of one `GetGPUWorkerBlock` call, in order: the `CHECK_LT` bounds
check on the device id, acquisition of `create_mutex_`, and construction of a
new worker block. -/
inductive ResolveEvent
  | boundsCheck (dev_id : Nat)
  | lockAcquire
  | construct (blockId : Nat)
  deriving DecidableEq, Repr

/-- Result of `GetGPUWorkerBlock`: the resolved block together with the
post-call engine state, or a fatal CHECK failure (process abort). -/
inductive ResolveResult
  | ok (block : ThreadWorkerBlock) (s : EngineState)
  | fatal (msg : String)

/-- Model of `ThreadedEnginePerDevice::GetGPUWorkerBlock(dev_id, prop)`: compute the
category from the property, CHECK the device id bound, read the slot; if
empty, take the creation lock, re-read (double check), and if still empty
construct the worker block (queue plus a pool of category-width threads
running `GPUWorker(dev_id, is_copy, queue)`) and store it in the slot.
Returns the result paired with the ordered event trace. -/
def GetGPUWorkerBlock (s : EngineState) (dev_id : Nat) (prop : FnProperty) :
    ResolveResult × List ResolveEvent :=
  let is_copy := is_copy_prop prop
  if dev_id < kMaxNumGPUs then
    let workers := gpuWorkers s is_copy
    match workers dev_id with
    | some block => (ResolveResult.ok block s, [ResolveEvent.boundsCheck dev_id])
    | none =>
      -- lock(create_mutex_); re-read the slot under the lock
      match workers dev_id with
      | some block =>
          (ResolveResult.ok block s,
           [ResolveEvent.boundsCheck dev_id, ResolveEvent.lockAcquire])
      | none =>
          let nthread := if is_copy then s.gpu_copy_nthreads else s.gpu_worker_nthreads
          let block : ThreadWorkerBlock :=
            { blockId := s.next_block_id
              task_queue := emptyQueue
              pool_nthread := nthread
              pool_loop := LoopKind.gpuLoop dev_id is_copy }
          let s1 := setGpuWorkers s is_copy (storeSlot workers dev_id block)
          let s2 := { s1 with next_block_id := s.next_block_id + 1 }
          (ResolveResult.ok block s2,
           [ResolveEvent.boundsCheck dev_id, ResolveEvent.lockAcquire,
            ResolveEvent.construct block.blockId])
  else
    (ResolveResult.fatal "GPU Device index exceed bound",
     [ResolveEvent.boundsCheck dev_id])

/-- Identity of a queue a task can be pushed to: the single CPU queue, or the
queue of the GPU worker block at (device id, category). -/
inductive QueueId
  | cpuQueue
  | gpuQueue (dev_id : Nat) (is_copy : Bool)
  deriving DecidableEq, Repr

/-- What `PushToExecute` did with the task: executed it inline through
`ExecuteOprBlock` with the given run context, or pushed it to a queue. -/
inductive DispatchOutcome
  | executedInline (run_ctx : RunContext)
  | pushed (q : QueueId)
  deriving DecidableEq, Repr

/-- Push the task into the queue of the GPU block currently stored at
(category, device id): the slot's block is the very object whose queue
`block->task_queue.Push(opr_block)` mutates. -/
def pushGpuSlot (s : EngineState) (is_copy : Bool) (dev_id : Nat)
    (opr_block : OprBlock) : EngineState :=
  match gpuWorkers s is_copy dev_id with
  | some block =>
      setGpuWorkers s is_copy (storeSlot (gpuWorkers s is_copy) dev_id
        { block with task_queue := block.task_queue.Push opr_block })
  | none => s

/-- Model of `ThreadedEnginePerDevice::PushToExecute(opr_block, pusher_thread)`:
Async tasks pushed from the pusher thread are executed inline with a null
stream after a CHECK that they target CPU; otherwise the task is routed by
device mask — CPU to the CPU queue, GPU to the resolved (device id, category)
block's queue, anything else a fatal CHECK failure. -/
def PushToExecute (s : EngineState) (opr_block : OprBlock)
    (pusher_thread : Bool) : Except String (DispatchOutcome × EngineState) :=
  if opr_block.opr.prop == FnProperty.kAsync && pusher_thread then
    if opr_block.ctx.dev_mask == cpuKDevMask then
      -- RunContext run_ctx; run_ctx.stream = nullptr; ExecuteOprBlock(run_ctx, opr_block)
      Except.ok (DispatchOutcome.executedInline { stream := none }, s)
    else
      Except.error "Check failed: opr_block->ctx.dev_mask == cpu::kDevMask"
  else
    if opr_block.ctx.dev_mask == cpuKDevMask then
      Except.ok (DispatchOutcome.pushed QueueId.cpuQueue,
        { s with cpu_worker :=
            { s.cpu_worker with
                task_queue := s.cpu_worker.task_queue.Push opr_block } })
    else if opr_block.ctx.dev_mask == gpuKDevMask then
      match GetGPUWorkerBlock s opr_block.ctx.dev_id opr_block.opr.prop with
      | (ResolveResult.ok _ s1, _) =>
          let is_copy := is_copy_prop opr_block.opr.prop
          Except.ok
            (DispatchOutcome.pushed
              (QueueId.gpuQueue opr_block.ctx.dev_id is_copy),
             pushGpuSlot s1 is_copy opr_block.ctx.dev_id opr_block)
      | (ResolveResult.fatal msg, _) => Except.error msg
    else
      Except.error "Check failed: ctx.dev_mask == gpu::kDevMask"

/-- Contents of the queue named by a `QueueId` (empty for a GPU slot that has
no worker block yet). -/
def queueOf (s : EngineState) : QueueId → List OprBlock
  | QueueId.cpuQueue => s.cpu_worker.task_queue.items
  | QueueId.gpuQueue dev_id is_copy =>
      match gpuWorkers s is_copy dev_id with
      | some block => block.task_queue.items
      | none => []

/-- Events of one worker-loop thread, in order. -/
inductive WorkerEvent
  | setDevice (dev_id : Nat)
  | newStream (stream : Stream)
  | execOprBlock (run_ctx : RunContext) (opr_block : OprBlock)
  | deleteStream (stream : Stream)
  deriving DecidableEq, Repr

/-- Model of `ThreadedEnginePerDevice::GPUWorker(dev_id, is_copy_worker, task_queue)`
(the `MXNET_USE_CUDA` body): select the device, allocate one stream —
`NewStream(false, false)` for a copy worker, `NewStream(true, MXNET_USE_CUDNN)`
otherwise — then execute every popped task with the run context holding that
stream, and delete the stream once the queue's pop fails (shutdown).
`popped` is the list of tasks the loop pops before shutdown; `use_cudnn`
models the `MXNET_USE_CUDNN != 0` compile flag. -/
def GPUWorker (use_cudnn : Bool) (dev_id : Nat) (is_copy_worker : Bool)
    (popped : List OprBlock) : List WorkerEvent :=
  let stream : Stream :=
    if is_copy_worker then { blas_handle := false, dnn_handle := false }
    else { blas_handle := true, dnn_handle := use_cudnn }
  let run_ctx : RunContext := { stream := some stream }
  [WorkerEvent.setDevice dev_id, WorkerEvent.newStream stream]
    ++ popped.map (fun opr_block => WorkerEvent.execOprBlock run_ctx opr_block)
    ++ [WorkerEvent.deleteStream stream]

/-- Model of `ThreadedEnginePerDevice::CPUWorker(task_queue)`: execute every popped
task with a null-stream run context; no stream is ever allocated. -/
def CPUWorker (popped : List OprBlock) : List WorkerEvent :=
  popped.map (fun opr_block =>
    WorkerEvent.execOprBlock { stream := none } opr_block)

/-- Whether a worker event is a stream allocation. -/
def WorkerEvent.isNewStream : WorkerEvent → Bool
  | WorkerEvent.newStream _ => true
  | _ => false

/-- Whether a worker event is a stream release. -/
def WorkerEvent.isDeleteStream : WorkerEvent → Bool
  | WorkerEvent.deleteStream _ => true
  | _ => false

/-- Teardown events of a `ThreadWorkerBlock`, in order. -/
inductive DtorEvent
  | signalForKill
  | poolTeardown
  | queueDestroy
  deriving DecidableEq, Repr

/-- The `ThreadWorkerBlock` destructor: its body calls
`task_queue.SignalForKill()`, then C++ destroys the members in reverse
declaration order (`pool` was declared after `task_queue`, so the pool is
torn down next, the queue destroyed last).  Returns the queue state after the
destructor body together with the ordered teardown events. -/
def ThreadWorkerBlock.destruct (b : ThreadWorkerBlock) :
    ConcurrentBlockingQueue × List DtorEvent :=
  (b.task_queue.SignalForKill,
   [DtorEvent.signalForKill, DtorEvent.poolTeardown, DtorEvent.queueDestroy])

/-- One atomic dispatch step on the engine state (a fatal CHECK aborts the
process, so the state is not observed further; we leave it unchanged). -/
def stepState (s : EngineState) (req : OprBlock × Bool) : EngineState :=
  match PushToExecute s req.1 req.2 with
  | Except.ok (_, s1) => s1
  | Except.error _ => s

/-- Run a history of dispatch calls, one atomic step each. -/
def runTrace (s : EngineState) (reqs : List (OprBlock × Bool)) : EngineState :=
  reqs.foldl stepState s

/-- Identity of the worker block in the (category, device id) slot, if any. -/
def slotId (s : EngineState) (is_copy : Bool) (dev_id : Nat) : Option Nat :=
  (gpuWorkers s is_copy dev_id).map (fun b => b.blockId)

/-- The worker block `GetGPUWorkerBlock` constructs when the slot is empty. -/
def freshBlock (s : EngineState) (dev_id : Nat) (p : FnProperty) :
    ThreadWorkerBlock :=
  { blockId := s.next_block_id
    task_queue := emptyQueue
    pool_nthread := if is_copy_prop p then s.gpu_copy_nthreads else s.gpu_worker_nthreads
    pool_loop := LoopKind.gpuLoop dev_id (is_copy_prop p) }

/-- The engine state after `GetGPUWorkerBlock` constructs and stores a fresh
worker block in the (category, device id) slot. -/
def createState (s : EngineState) (dev_id : Nat) (p : FnProperty) : EngineState :=
  { setGpuWorkers s (is_copy_prop p)
      (storeSlot (gpuWorkers s (is_copy_prop p)) dev_id (freshBlock s dev_id p)) with
    next_block_id := s.next_block_id + 1 }

theorem gpuWorkers_set_same (s : EngineState) (c : Bool)
    (w : Nat → Option ThreadWorkerBlock) :
    gpuWorkers (setGpuWorkers s c w) c = w := by
  cases c <;> rfl

theorem gpuWorkers_set_other (s : EngineState) (c c' : Bool)
    (w : Nat → Option ThreadWorkerBlock) (h : c' ≠ c) :
    gpuWorkers (setGpuWorkers s c w) c' = gpuWorkers s c' := by
  cases c <;> cases c' <;> first | rfl | exact absurd rfl h

theorem cpu_worker_set (s : EngineState) (c : Bool)
    (w : Nat → Option ThreadWorkerBlock) :
    (setGpuWorkers s c w).cpu_worker = s.cpu_worker := by
  cases c <;> rfl

theorem gpuWorkers_mk_next (s : EngineState) (n : Nat) (c : Bool) :
    gpuWorkers { s with next_block_id := n } c = gpuWorkers s c := by
  cases c <;> rfl

theorem gpuWorkers_cpu_update (s : EngineState) (cw : ThreadWorkerBlock)
    (c : Bool) :
    gpuWorkers { s with cpu_worker := cw } c = gpuWorkers s c := by
  cases c <;> rfl

theorem storeSlot_same (w : Nat → Option ThreadWorkerBlock) (dev_id : Nat)
    (b : ThreadWorkerBlock) : storeSlot w dev_id b dev_id = some b := by
  simp [storeSlot]

theorem storeSlot_other (w : Nat → Option ThreadWorkerBlock) (dev_id : Nat)
    (b : ThreadWorkerBlock) (j : Nat) (h : j ≠ dev_id) :
    storeSlot w dev_id b j = w j := by
  simp [storeSlot, h]

theorem getGPU_ready (s : EngineState) (dev_id : Nat) (p : FnProperty)
    (b : ThreadWorkerBlock) (hd : dev_id < kMaxNumGPUs)
    (h : gpuWorkers s (is_copy_prop p) dev_id = some b) :
    GetGPUWorkerBlock s dev_id p =
      (ResolveResult.ok b s, [ResolveEvent.boundsCheck dev_id]) := by
  simp [GetGPUWorkerBlock, hd, h]

theorem getGPU_create (s : EngineState) (dev_id : Nat) (p : FnProperty)
    (hd : dev_id < kMaxNumGPUs)
    (h : gpuWorkers s (is_copy_prop p) dev_id = none) :
    GetGPUWorkerBlock s dev_id p =
      (ResolveResult.ok (freshBlock s dev_id p) (createState s dev_id p),
       [ResolveEvent.boundsCheck dev_id, ResolveEvent.lockAcquire,
        ResolveEvent.construct s.next_block_id]) := by
  simp [GetGPUWorkerBlock, hd, h, freshBlock, createState]

theorem getGPU_fatal (s : EngineState) (dev_id : Nat) (p : FnProperty)
    (hd : kMaxNumGPUs ≤ dev_id) :
    GetGPUWorkerBlock s dev_id p =
      (ResolveResult.fatal "GPU Device index exceed bound",
       [ResolveEvent.boundsCheck dev_id]) := by
  simp [GetGPUWorkerBlock, Nat.not_lt.mpr hd]

theorem cpu_worker_createState (s : EngineState) (dev_id : Nat) (p : FnProperty) :
    (createState s dev_id p).cpu_worker = s.cpu_worker := by
  unfold createState
  cases hcp : is_copy_prop p <;> simp [setGpuWorkers]

theorem gpuWorkers_createState_self (s : EngineState) (dev_id : Nat)
    (p : FnProperty) :
    gpuWorkers (createState s dev_id p) (is_copy_prop p) dev_id =
      some (freshBlock s dev_id p) := by
  unfold createState
  rw [gpuWorkers_mk_next, gpuWorkers_set_same, storeSlot_same]

theorem queueOf_createState (s : EngineState) (dev_id : Nat) (p : FnProperty)
    (h : gpuWorkers s (is_copy_prop p) dev_id = none) (q1 : QueueId) :
    queueOf (createState s dev_id p) q1 = queueOf s q1 := by
  cases q1 with
  | cpuQueue => simp [queueOf, cpu_worker_createState]
  | gpuQueue d' c' =>
      by_cases hc : c' = is_copy_prop p
      · subst hc
        by_cases hdd : d' = dev_id
        · subst hdd
          simp [queueOf, gpuWorkers_createState_self, h, freshBlock, emptyQueue]
        · unfold createState
          simp [queueOf, gpuWorkers_mk_next, gpuWorkers_set_same,
            storeSlot_other _ _ _ _ hdd]
      · unfold createState
        simp [queueOf, gpuWorkers_mk_next, gpuWorkers_set_other _ _ _ _ hc]

theorem queueOf_pushGpuSlot_self (s : EngineState) (c : Bool) (d : Nat)
    (t : OprBlock) (b : ThreadWorkerBlock) (h : gpuWorkers s c d = some b) :
    queueOf (pushGpuSlot s c d t) (QueueId.gpuQueue d c) =
      b.task_queue.items ++ [t] := by
  simp [pushGpuSlot, h, queueOf, gpuWorkers_set_same, storeSlot_same,
    ConcurrentBlockingQueue.Push]

theorem queueOf_pushGpuSlot_other (s : EngineState) (c : Bool) (d : Nat)
    (t : OprBlock) (b : ThreadWorkerBlock) (h : gpuWorkers s c d = some b)
    (q1 : QueueId) (hq : q1 ≠ QueueId.gpuQueue d c) :
    queueOf (pushGpuSlot s c d t) q1 = queueOf s q1 := by
  cases q1 with
  | cpuQueue => simp [pushGpuSlot, h, queueOf, cpu_worker_set]
  | gpuQueue d' c' =>
      by_cases hc : c' = c
      · subst hc
        have hdd : d' ≠ d := by
          intro hdd
          exact hq (by rw [hdd])
        simp [pushGpuSlot, h, queueOf, gpuWorkers_set_same,
          storeSlot_other _ _ _ _ hdd]
      · simp [pushGpuSlot, h, queueOf, gpuWorkers_set_other _ _ _ _ hc]

theorem not_inline_bool (t : OprBlock) (pusher_thread : Bool)
    (hni : ¬(t.opr.prop = FnProperty.kAsync ∧ pusher_thread = true)) :
    (t.opr.prop == FnProperty.kAsync && pusher_thread) = false := by
  cases pusher_thread with
  | false => simp
  | true =>
      simp only [Bool.and_true, beq_eq_false_iff_ne, ne_eq]
      intro hh
      exact hni ⟨hh, rfl⟩

theorem slotId_cpu_update (s : EngineState) (cw : ThreadWorkerBlock) (c : Bool)
    (d : Nat) : slotId { s with cpu_worker := cw } c d = slotId s c d := by
  simp [slotId, gpuWorkers_cpu_update]

theorem slotId_pushGpuSlot (s : EngineState) (c0 : Bool) (d0 : Nat)
    (t : OprBlock) (c : Bool) (d : Nat) :
    slotId (pushGpuSlot s c0 d0 t) c d = slotId s c d := by
  unfold pushGpuSlot
  cases hs : gpuWorkers s c0 d0 with
  | none => rfl
  | some b =>
      by_cases hc : c = c0
      · subst hc
        by_cases hdd : d = d0
        · subst hdd
          simp [slotId, gpuWorkers_set_same, storeSlot_same, hs]
        · simp [slotId, gpuWorkers_set_same, storeSlot_other _ _ _ _ hdd]
      · simp [slotId, gpuWorkers_set_other _ _ _ _ hc]

theorem slotId_createState_other (s : EngineState) (d0 : Nat) (p : FnProperty)
    (c : Bool) (d : Nat) (h : ¬(c = is_copy_prop p ∧ d = d0)) :
    slotId (createState s d0 p) c d = slotId s c d := by
  unfold createState
  by_cases hc : c = is_copy_prop p
  · subst hc
    have hdd : d ≠ d0 := fun hdd => h ⟨rfl, hdd⟩
    simp [slotId, gpuWorkers_mk_next, gpuWorkers_set_same,
      storeSlot_other _ _ _ _ hdd]
  · simp [slotId, gpuWorkers_mk_next, gpuWorkers_set_other _ _ _ _ hc]

theorem slotId_step (s : EngineState) (t : OprBlock) (pusher : Bool) (c : Bool)
    (d : Nat) (i : Nat) (h : slotId s c d = some i) :
    slotId (stepState s (t, pusher)) c d = some i := by
  unfold stepState
  by_cases hb : (t.opr.prop == FnProperty.kAsync && pusher) = true
  · by_cases hc : (t.ctx.dev_mask == cpuKDevMask) = true
    · simpa [PushToExecute, hb, hc] using h
    · simpa [PushToExecute, hb, hc] using h
  · by_cases hc : (t.ctx.dev_mask == cpuKDevMask) = true
    · rw [show PushToExecute s t pusher =
          Except.ok (DispatchOutcome.pushed QueueId.cpuQueue,
            { s with cpu_worker :=
                { s.cpu_worker with
                    task_queue := s.cpu_worker.task_queue.Push t } }) from by
        simp [PushToExecute, hb, hc]]
      simpa [slotId_cpu_update] using h
    · by_cases hg : (t.ctx.dev_mask == gpuKDevMask) = true
      · rcases Nat.lt_or_ge t.ctx.dev_id kMaxNumGPUs with hd | hd
        · cases hslot : gpuWorkers s (is_copy_prop t.opr.prop) t.ctx.dev_id with
          | some b =>
              rw [show PushToExecute s t pusher =
                  Except.ok (DispatchOutcome.pushed
                    (QueueId.gpuQueue t.ctx.dev_id (is_copy_prop t.opr.prop)),
                   pushGpuSlot s (is_copy_prop t.opr.prop) t.ctx.dev_id t) from by
                simp [PushToExecute, hb, hc, hg,
                  getGPU_ready s t.ctx.dev_id t.opr.prop b hd hslot]]
              simpa [slotId_pushGpuSlot] using h
          | none =>
              rw [show PushToExecute s t pusher =
                  Except.ok (DispatchOutcome.pushed
                    (QueueId.gpuQueue t.ctx.dev_id (is_copy_prop t.opr.prop)),
                   pushGpuSlot (createState s t.ctx.dev_id t.opr.prop)
                     (is_copy_prop t.opr.prop) t.ctx.dev_id t) from by
                simp [PushToExecute, hb, hc, hg,
                  getGPU_create s t.ctx.dev_id t.opr.prop hd hslot]]
              rw [slotId_pushGpuSlot]
              rw [slotId_createState_other]
              · exact h
              · intro hcd
                rw [hcd.1, hcd.2] at h
                rw [slotId, hslot] at h
                exact Option.noConfusion h
        · rw [show PushToExecute s t pusher =
              Except.error "GPU Device index exceed bound" from by
            simp [PushToExecute, hb, hc, hg,
              getGPU_fatal s t.ctx.dev_id t.opr.prop hd]]
          exact h
      · rw [show PushToExecute s t pusher =
            Except.error "Check failed: ctx.dev_mask == gpu::kDevMask" from by
          simp [PushToExecute, hb, hc, hg]]
        exact h

theorem slotId_runTrace (s : EngineState) (reqs : List (OprBlock × Bool))
    (c : Bool) (d : Nat) (i : Nat) (h : slotId s c d = some i) :
    slotId (runTrace s reqs) c d = some i := by
  induction reqs generalizing s with
  | nil => exact h
  | cons r rs ih =>
      exact ih (stepState s r) (slotId_step s r.1 r.2 c d i h)

/-- Claim C1: every task handed to `PushToExecute` is, unless the call aborts
on a contract violation, either executed inline exactly once (state
unchanged, no queue touched) or pushed onto exactly one worker-block queue
(that queue grows by exactly the task, every other queue is unchanged) —
never both, never neither. -/
theorem dispatch_exactly_once (s : EngineState) (t : OprBlock)
    (pusher_thread : Bool) :
    (∃ msg, PushToExecute s t pusher_thread = Except.error msg) ∨
    (∃ rc, PushToExecute s t pusher_thread =
        Except.ok (DispatchOutcome.executedInline rc, s)) ∨
    (∃ q s1, PushToExecute s t pusher_thread =
        Except.ok (DispatchOutcome.pushed q, s1) ∧
      queueOf s1 q = queueOf s q ++ [t] ∧
      ∀ q1, q1 ≠ q → queueOf s1 q1 = queueOf s q1) := by
  by_cases hb : (t.opr.prop == FnProperty.kAsync && pusher_thread) = true
  · by_cases hc : (t.ctx.dev_mask == cpuKDevMask) = true
    · exact Or.inr (Or.inl ⟨{ stream := none }, by simp [PushToExecute, hb, hc]⟩)
    · exact Or.inl ⟨"Check failed: opr_block->ctx.dev_mask == cpu::kDevMask",
        by simp [PushToExecute, hb, hc]⟩
  · by_cases hc : (t.ctx.dev_mask == cpuKDevMask) = true
    · refine Or.inr (Or.inr ⟨QueueId.cpuQueue,
        { s with cpu_worker :=
            { s.cpu_worker with
                task_queue := s.cpu_worker.task_queue.Push t } }, ?_, ?_, ?_⟩)
      · simp [PushToExecute, hb, hc]
      · simp [queueOf, ConcurrentBlockingQueue.Push]
      · intro q1 hq
        cases q1 with
        | cpuQueue => exact absurd rfl hq
        | gpuQueue d' c' => simp [queueOf, gpuWorkers_cpu_update]
    · by_cases hg : (t.ctx.dev_mask == gpuKDevMask) = true
      · rcases Nat.lt_or_ge t.ctx.dev_id kMaxNumGPUs with hd | hd
        · cases hslot : gpuWorkers s (is_copy_prop t.opr.prop) t.ctx.dev_id with
          | some b =>
              refine Or.inr (Or.inr
                ⟨QueueId.gpuQueue t.ctx.dev_id (is_copy_prop t.opr.prop),
                 pushGpuSlot s (is_copy_prop t.opr.prop) t.ctx.dev_id t,
                 ?_, ?_, ?_⟩)
              · simp [PushToExecute, hb, hc, hg,
                  getGPU_ready s t.ctx.dev_id t.opr.prop b hd hslot]
              · rw [queueOf_pushGpuSlot_self s _ _ t b hslot]
                simp [queueOf, hslot]
              · intro q1 hq
                exact queueOf_pushGpuSlot_other s _ _ t b hslot q1 hq
          | none =>
              refine Or.inr (Or.inr
                ⟨QueueId.gpuQueue t.ctx.dev_id (is_copy_prop t.opr.prop),
                 pushGpuSlot (createState s t.ctx.dev_id t.opr.prop)
                   (is_copy_prop t.opr.prop) t.ctx.dev_id t,
                 ?_, ?_, ?_⟩)
              · simp [PushToExecute, hb, hc, hg,
                  getGPU_create s t.ctx.dev_id t.opr.prop hd hslot]
              · rw [queueOf_pushGpuSlot_self (createState s t.ctx.dev_id t.opr.prop)
                    _ _ t _ (gpuWorkers_createState_self s t.ctx.dev_id t.opr.prop)]
                simp [queueOf, hslot, freshBlock, emptyQueue]
              · intro q1 hq
                rw [queueOf_pushGpuSlot_other (createState s t.ctx.dev_id t.opr.prop)
                    _ _ t _ (gpuWorkers_createState_self s t.ctx.dev_id t.opr.prop) q1 hq]
                exact queueOf_createState s t.ctx.dev_id t.opr.prop hslot q1
        · exact Or.inl ⟨"GPU Device index exceed bound", by
            simp [PushToExecute, hb, hc, hg,
              getGPU_fatal s t.ctx.dev_id t.opr.prop hd]⟩
      · exact Or.inl ⟨"Check failed: ctx.dev_mask == gpu::kDevMask",
          by simp [PushToExecute, hb, hc, hg]⟩

/-- Claim C2: an Async task dispatched with `pusher_thread = true` is, when it
targets CPU, executed inline in the caller through `ExecuteOprBlock` with a
null-stream run context and the state untouched (no queue receives it); when
it does not target CPU the CHECK fails and the process aborts. -/
theorem async_inline_bypass (s : EngineState) (t : OprBlock)
    (hprop : t.opr.prop = FnProperty.kAsync) :
    (t.ctx.dev_mask = cpuKDevMask →
      PushToExecute s t true =
        Except.ok (DispatchOutcome.executedInline { stream := none }, s)) ∧
    (t.ctx.dev_mask ≠ cpuKDevMask →
      PushToExecute s t true =
        Except.error "Check failed: opr_block->ctx.dev_mask == cpu::kDevMask") := by
  constructor
  · intro hcpu
    simp [PushToExecute, hprop, hcpu]
  · intro hcpu
    simp [PushToExecute, hprop, beq_iff_eq, hcpu]

/-- Claim C2 witness: a concrete Async CPU task dispatched from the pusher
thread is executed inline with a null stream, state unchanged. -/
theorem async_inline_bypass_witness :
    PushToExecute (ThreadedEnginePerDevice.mkEngine ⟨none, none, none⟩)
        ⟨⟨FnProperty.kAsync⟩, ⟨1, 0⟩⟩ true =
      Except.ok (DispatchOutcome.executedInline { stream := none },
        ThreadedEnginePerDevice.mkEngine ⟨none, none, none⟩) :=
  (async_inline_bypass (ThreadedEnginePerDevice.mkEngine ⟨none, none, none⟩)
    ⟨⟨FnProperty.kAsync⟩, ⟨1, 0⟩⟩ rfl).1 rfl

/-- Claim C9: a task that is not taken by the inline path and whose device
mask is neither the CPU mask nor the GPU mask makes `PushToExecute` abort
fatally on the `CHECK_EQ(ctx.dev_mask, gpu::kDevMask)`. -/
theorem unknown_devmask_fatal (s : EngineState) (t : OprBlock)
    (pusher_thread : Bool)
    (hni : ¬(t.opr.prop = FnProperty.kAsync ∧ pusher_thread = true))
    (hcpu : t.ctx.dev_mask ≠ cpuKDevMask)
    (hgpu : t.ctx.dev_mask ≠ gpuKDevMask) :
    PushToExecute s t pusher_thread =
      Except.error "Check failed: ctx.dev_mask == gpu::kDevMask" := by
  have hb : (t.opr.prop == FnProperty.kAsync && pusher_thread) = false := by
    cases pusher_thread with
    | false => simp
    | true =>
        simp only [Bool.and_true, beq_eq_false_iff_ne, ne_eq]
        intro hh
        exact hni ⟨hh, rfl⟩
  simp [PushToExecute, hb, beq_iff_eq, hcpu, hgpu]

/-- Claim C9 witness: a concrete Normal task with device mask 3 (neither CPU
mask 1 nor GPU mask 2) aborts the dispatch. -/
theorem unknown_devmask_fatal_witness :
    PushToExecute (ThreadedEnginePerDevice.mkEngine ⟨none, none, none⟩)
        ⟨⟨FnProperty.kNormal⟩, ⟨3, 0⟩⟩ false =
      Except.error "Check failed: ctx.dev_mask == gpu::kDevMask" :=
  unknown_devmask_fatal (ThreadedEnginePerDevice.mkEngine ⟨none, none, none⟩)
    ⟨⟨FnProperty.kNormal⟩, ⟨3, 0⟩⟩ false
    (by simp) (by decide) (by decide)

/-- Claim C10: a CPU-targeted task not taken by the inline path is pushed to
the single CPU queue whatever its device id — the `kMaxNumGPUs` bound is
never consulted on the CPU path, so even a device id at or above the bound is
accepted and delivered. -/
theorem cpu_push_ignores_dev_id (s : EngineState) (t : OprBlock)
    (pusher_thread : Bool)
    (hni : ¬(t.opr.prop = FnProperty.kAsync ∧ pusher_thread = true))
    (hcpu : t.ctx.dev_mask = cpuKDevMask) :
    ∃ s1, PushToExecute s t pusher_thread =
        Except.ok (DispatchOutcome.pushed QueueId.cpuQueue, s1) ∧
      queueOf s1 QueueId.cpuQueue = queueOf s QueueId.cpuQueue ++ [t] := by
  have hb : (t.opr.prop == FnProperty.kAsync && pusher_thread) = false := by
    cases pusher_thread with
    | false => simp
    | true =>
        simp only [Bool.and_true, beq_eq_false_iff_ne, ne_eq]
        intro hh
        exact hni ⟨hh, rfl⟩
  refine ⟨{ s with cpu_worker :=
      { s.cpu_worker with
          task_queue := s.cpu_worker.task_queue.Push t } }, ?_, ?_⟩
  · simp [PushToExecute, hb, hcpu]
  · simp [queueOf, ConcurrentBlockingQueue.Push]

/-- Claim C10 witness: a concrete Normal CPU task whose device id
`kMaxNumGPUs + 5` is far above the GPU bound is still pushed to the CPU
queue. -/
theorem cpu_push_ignores_dev_id_witness :
    ∃ s1, PushToExecute (ThreadedEnginePerDevice.mkEngine ⟨none, none, none⟩)
        ⟨⟨FnProperty.kNormal⟩, ⟨1, kMaxNumGPUs + 5⟩⟩ false =
        Except.ok (DispatchOutcome.pushed QueueId.cpuQueue, s1) ∧
      queueOf s1 QueueId.cpuQueue =
        queueOf (ThreadedEnginePerDevice.mkEngine ⟨none, none, none⟩)
          QueueId.cpuQueue ++ [⟨⟨FnProperty.kNormal⟩, ⟨1, kMaxNumGPUs + 5⟩⟩] :=
  cpu_push_ignores_dev_id (ThreadedEnginePerDevice.mkEngine ⟨none, none, none⟩)
    ⟨⟨FnProperty.kNormal⟩, ⟨1, kMaxNumGPUs + 5⟩⟩ false (by simp) rfl

/-- Claim C3: a task not taken by the inline path is routed by its context —
CPU device mask to the single CPU queue whatever the device id; GPU device
mask to the queue of the block resolved for (device id, category), where the
category is Copy exactly for `kCopyToGPU` and `kCopyFromGPU` properties and
Normal otherwise (Async included). -/
theorem route_by_context (s : EngineState) (t : OprBlock) (pusher_thread : Bool)
    (hni : ¬(t.opr.prop = FnProperty.kAsync ∧ pusher_thread = true)) :
    (t.ctx.dev_mask = cpuKDevMask →
      ∃ s1, PushToExecute s t pusher_thread =
        Except.ok (DispatchOutcome.pushed QueueId.cpuQueue, s1)) ∧
    (t.ctx.dev_mask = gpuKDevMask → t.ctx.dev_id < kMaxNumGPUs →
      ∃ s1, PushToExecute s t pusher_thread =
        Except.ok (DispatchOutcome.pushed
          (QueueId.gpuQueue t.ctx.dev_id (is_copy_prop t.opr.prop)), s1) ∧
        queueOf s1 (QueueId.gpuQueue t.ctx.dev_id (is_copy_prop t.opr.prop)) =
          queueOf s (QueueId.gpuQueue t.ctx.dev_id (is_copy_prop t.opr.prop))
            ++ [t]) ∧
    (is_copy_prop t.opr.prop = true ↔
      (t.opr.prop = FnProperty.kCopyToGPU ∨
       t.opr.prop = FnProperty.kCopyFromGPU)) := by
  have hb := not_inline_bool t pusher_thread hni
  refine ⟨?_, ?_, ?_⟩
  · intro hcpu
    exact ⟨{ s with cpu_worker :=
        { s.cpu_worker with
            task_queue := s.cpu_worker.task_queue.Push t } },
      by simp [PushToExecute, hb, hcpu]⟩
  · intro hgpu hd
    have hcpu2 : t.ctx.dev_mask ≠ cpuKDevMask := by
      simp [hgpu, gpuKDevMask, cpuKDevMask]
    cases hslot : gpuWorkers s (is_copy_prop t.opr.prop) t.ctx.dev_id with
    | some b =>
        refine ⟨pushGpuSlot s (is_copy_prop t.opr.prop) t.ctx.dev_id t, ?_, ?_⟩
        · simp [PushToExecute, hb, beq_iff_eq, hcpu2, hgpu,
            getGPU_ready s t.ctx.dev_id t.opr.prop b hd hslot]
          decide
        · rw [queueOf_pushGpuSlot_self s _ _ t b hslot]
          simp [queueOf, hslot]
    | none =>
        refine ⟨pushGpuSlot (createState s t.ctx.dev_id t.opr.prop)
          (is_copy_prop t.opr.prop) t.ctx.dev_id t, ?_, ?_⟩
        · simp [PushToExecute, hb, beq_iff_eq, hcpu2, hgpu,
            getGPU_create s t.ctx.dev_id t.opr.prop hd hslot]
          decide
        · rw [queueOf_pushGpuSlot_self (createState s t.ctx.dev_id t.opr.prop)
              _ _ t _ (gpuWorkers_createState_self s t.ctx.dev_id t.opr.prop)]
          simp [queueOf, hslot, freshBlock, emptyQueue]
  · cases t.opr.prop <;> simp [is_copy_prop]

/-- Claim C3 witness: a concrete `kCopyToGPU` GPU task on device 0 is pushed
to the (0, Copy) queue, and the Copy category is exactly the two copy
properties. -/
theorem route_by_context_witness :
    (∃ s1, PushToExecute (ThreadedEnginePerDevice.mkEngine ⟨none, none, none⟩)
        ⟨⟨FnProperty.kCopyToGPU⟩, ⟨2, 0⟩⟩ false =
      Except.ok (DispatchOutcome.pushed (QueueId.gpuQueue 0 true), s1) ∧
      queueOf s1 (QueueId.gpuQueue 0 true) =
        queueOf (ThreadedEnginePerDevice.mkEngine ⟨none, none, none⟩)
          (QueueId.gpuQueue 0 true) ++ [⟨⟨FnProperty.kCopyToGPU⟩, ⟨2, 0⟩⟩]) ∧
    (is_copy_prop FnProperty.kCopyToGPU = true ↔
      (FnProperty.kCopyToGPU = FnProperty.kCopyToGPU ∨
       FnProperty.kCopyToGPU = FnProperty.kCopyFromGPU)) :=
  ⟨(route_by_context (ThreadedEnginePerDevice.mkEngine ⟨none, none, none⟩)
      ⟨⟨FnProperty.kCopyToGPU⟩, ⟨2, 0⟩⟩ false (by simp)).2.1 rfl (by decide),
   (route_by_context (ThreadedEnginePerDevice.mkEngine ⟨none, none, none⟩)
      ⟨⟨FnProperty.kCopyToGPU⟩, ⟨2, 0⟩⟩ false (by simp)).2.2⟩

/-- Claim C4: the GPU worker-block registry creates at most one block per
(device id, category).  A slot already holding a block makes
`GetGPUWorkerBlock` return exactly that block, with the state unchanged and
no lock taken and no construction; a construction event implies the slot was
empty at the read (the embedding performs the unsynchronized read and the
locked re-read, which in the sequential model see the same slot); a
construction fills the slot with the fresh block; and whatever dispatch calls
later run, a filled slot keeps its block's identity forever, so every later
resolve for that pair returns the same block. -/
theorem registry_at_most_one_block (s : EngineState) (dev_id : Nat)
    (p : FnProperty) :
    (∀ b, dev_id < kMaxNumGPUs →
      gpuWorkers s (is_copy_prop p) dev_id = some b →
      GetGPUWorkerBlock s dev_id p =
        (ResolveResult.ok b s, [ResolveEvent.boundsCheck dev_id])) ∧
    (∀ i, ResolveEvent.construct i ∈ (GetGPUWorkerBlock s dev_id p).2 →
      gpuWorkers s (is_copy_prop p) dev_id = none) ∧
    (dev_id < kMaxNumGPUs → gpuWorkers s (is_copy_prop p) dev_id = none →
      GetGPUWorkerBlock s dev_id p =
        (ResolveResult.ok (freshBlock s dev_id p) (createState s dev_id p),
         [ResolveEvent.boundsCheck dev_id, ResolveEvent.lockAcquire,
          ResolveEvent.construct s.next_block_id]) ∧
      gpuWorkers (createState s dev_id p) (is_copy_prop p) dev_id =
        some (freshBlock s dev_id p)) ∧
    (∀ reqs c d i, slotId s c d = some i →
      slotId (runTrace s reqs) c d = some i) := by
  refine ⟨?_, ?_, ?_, ?_⟩
  · intro b hd h
    exact getGPU_ready s dev_id p b hd h
  · intro i hmem
    rcases Nat.lt_or_ge dev_id kMaxNumGPUs with hd | hd
    · cases hslot : gpuWorkers s (is_copy_prop p) dev_id with
      | some b =>
          rw [getGPU_ready s dev_id p b hd hslot] at hmem
          simp at hmem
      | none => rfl
    · rw [getGPU_fatal s dev_id p hd] at hmem
      simp at hmem
  · intro hd h
    exact ⟨getGPU_create s dev_id p hd h,
      gpuWorkers_createState_self s dev_id p⟩
  · intro reqs c d i h
    exact slotId_runTrace s reqs c d i h

/-- Claim C5: destroying a worker block signals its queue for shutdown first
and unconditionally — the kill flag is set whatever the block's state, the
event order puts the signal strictly before the pool teardown (the pool
member, declared after the queue, is destroyed first, after the destructor
body) — and the shutdown signal is idempotent. -/
theorem dtor_signal_before_teardown (b : ThreadWorkerBlock)
    (q : ConcurrentBlockingQueue) :
    ((ThreadWorkerBlock.destruct b).2 =
      [DtorEvent.signalForKill, DtorEvent.poolTeardown,
       DtorEvent.queueDestroy]) ∧
    ((ThreadWorkerBlock.destruct b).2.indexOf DtorEvent.signalForKill <
      (ThreadWorkerBlock.destruct b).2.indexOf DtorEvent.poolTeardown) ∧
    ((ThreadWorkerBlock.destruct b).1.killed = true) ∧
    (q.SignalForKill.SignalForKill = q.SignalForKill) := by
  refine ⟨rfl, ?_, rfl, rfl⟩
  simp only [ThreadWorkerBlock.destruct]
  decide

/-- Claim C6: `GetGPUWorkerBlock` aborts fatally exactly on a device id at or
above `kMaxNumGPUs`; the bounds check is the first event of every call (so it
precedes any lock acquisition, and a fatal call acquires no lock at all),
and an in-bounds device id always resolves to a block without aborting. -/
theorem gpu_bound_check_fatal (s : EngineState) (dev_id : Nat)
    (p : FnProperty) :
    (kMaxNumGPUs ≤ dev_id →
      GetGPUWorkerBlock s dev_id p =
        (ResolveResult.fatal "GPU Device index exceed bound",
         [ResolveEvent.boundsCheck dev_id])) ∧
    (dev_id < kMaxNumGPUs →
      ∃ b s1, (GetGPUWorkerBlock s dev_id p).1 = ResolveResult.ok b s1) ∧
    ((GetGPUWorkerBlock s dev_id p).2.head? =
      some (ResolveEvent.boundsCheck dev_id)) := by
  refine ⟨?_, ?_, ?_⟩
  · intro hd
    exact getGPU_fatal s dev_id p hd
  · intro hd
    cases hslot : gpuWorkers s (is_copy_prop p) dev_id with
    | some b =>
        exact ⟨b, s, by rw [getGPU_ready s dev_id p b hd hslot]⟩
    | none =>
        exact ⟨freshBlock s dev_id p, createState s dev_id p,
          by rw [getGPU_create s dev_id p hd hslot]⟩
  · rcases Nat.lt_or_ge dev_id kMaxNumGPUs with hd | hd
    · cases hslot : gpuWorkers s (is_copy_prop p) dev_id with
      | some b =>
          rw [getGPU_ready s dev_id p b hd hslot]
          rfl
      | none =>
          rw [getGPU_create s dev_id p hd hslot]
          rfl
    · rw [getGPU_fatal s dev_id p hd]
      rfl

/-- Claim C7: a GPU worker loop allocates exactly one stream at entry — no
BLAS and no cuDNN handle for a Copy-category loop, a BLAS handle (and cuDNN
when compiled in) for a Normal-category loop — executes every popped task
with the run context carrying that same stream, and deletes that stream
exactly once, as the loop's last action after all executions. -/
theorem gpu_worker_single_stream (use_cudnn : Bool) (dev_id : Nat)
    (is_copy_worker : Bool) (popped : List OprBlock) :
    ∃ st : Stream,
      GPUWorker use_cudnn dev_id is_copy_worker popped =
        [WorkerEvent.setDevice dev_id, WorkerEvent.newStream st]
          ++ popped.map (fun opr_block =>
              WorkerEvent.execOprBlock { stream := some st } opr_block)
          ++ [WorkerEvent.deleteStream st] ∧
      st.blas_handle = !is_copy_worker ∧
      st.dnn_handle = (!is_copy_worker && use_cudnn) ∧
      (GPUWorker use_cudnn dev_id is_copy_worker popped).countP
        WorkerEvent.isNewStream = 1 ∧
      (GPUWorker use_cudnn dev_id is_copy_worker popped).countP
        WorkerEvent.isDeleteStream = 1 ∧
      (GPUWorker use_cudnn dev_id is_copy_worker popped).getLast? =
        some (WorkerEvent.deleteStream st) := by
  cases is_copy_worker with
  | false =>
      refine ⟨{ blas_handle := true, dnn_handle := use_cudnn },
        rfl, rfl, rfl, ?_, ?_, ?_⟩
      · simp [GPUWorker, List.countP_cons, List.countP_append,
          List.countP_map, WorkerEvent.isNewStream, Function.comp]
      · simp [GPUWorker, List.countP_cons, List.countP_append,
          List.countP_map, WorkerEvent.isDeleteStream, Function.comp]
      · simp [GPUWorker]
        rw [← List.cons_append, List.getLast?_concat]
  | true =>
      refine ⟨{ blas_handle := false, dnn_handle := false },
        rfl, rfl, rfl, ?_, ?_, ?_⟩
      · simp [GPUWorker, List.countP_cons, List.countP_append,
          List.countP_map, WorkerEvent.isNewStream, Function.comp]
      · simp [GPUWorker, List.countP_cons, List.countP_append,
          List.countP_map, WorkerEvent.isDeleteStream, Function.comp]
      · simp [GPUWorker]
        rw [← List.cons_append, List.getLast?_concat]

/-- Claim C8 counterexample: the constructor has no worker-count parameters —
the counts come from environment variables — and nothing enforces
non-negativity: with MXNET_CPU_WORKER_NTHREADS set to -5 the engine is
constructed with a negative CPU worker count and a pool of that width,
refuting "takes three non-negative configuration integers as explicit
parameters". -/
theorem ctor_env_counterexample :
    (ThreadedEnginePerDevice.mkEngine
        ⟨some (-5), none, none⟩).cpu_worker_nthreads = -5 ∧
    (ThreadedEnginePerDevice.mkEngine
        ⟨some (-5), none, none⟩).cpu_worker.pool_nthread = -5 ∧
    ¬(0 ≤ (ThreadedEnginePerDevice.mkEngine
        ⟨some (-5), none, none⟩).cpu_worker_nthreads) := by
  refine ⟨rfl, rfl, ?_⟩
  decide

/-- Claim C8 (amended): the constructor reads the three configuration
integers from the environment — MXNET_CPU_WORKER_NTHREADS,
MXNET_GPU_WORKER_NTHREADS, MXNET_GPU_COPY_NTHREADS with defaults 2, 2, 1 and
no sign check — and on return the CPU worker block exists with a pool of
CPU-count threads running the CPU worker loop on a fresh queue, while every
GPU slot of both categories is still empty. -/
theorem ctor_env_config_and_eager_cpu (env : Env) :
    (ThreadedEnginePerDevice.mkEngine env).cpu_worker_nthreads =
      GetEnv env.mxnet_cpu_worker_nthreads 2 ∧
    (ThreadedEnginePerDevice.mkEngine env).gpu_worker_nthreads =
      GetEnv env.mxnet_gpu_worker_nthreads 2 ∧
    (ThreadedEnginePerDevice.mkEngine env).gpu_copy_nthreads =
      GetEnv env.mxnet_gpu_copy_nthreads 1 ∧
    (ThreadedEnginePerDevice.mkEngine env).cpu_worker.pool_nthread =
      GetEnv env.mxnet_cpu_worker_nthreads 2 ∧
    (ThreadedEnginePerDevice.mkEngine env).cpu_worker.pool_loop =
      LoopKind.cpuLoop ∧
    (ThreadedEnginePerDevice.mkEngine env).cpu_worker.task_queue =
      emptyQueue ∧
    (∀ c d, gpuWorkers (ThreadedEnginePerDevice.mkEngine env) c d = none) := by
  refine ⟨rfl, rfl, rfl, rfl, rfl, rfl, ?_⟩
  intro c d
  cases c <;> rfl

end MxnetEngine
